import Mathlib

/-!
Verification development for the feedback-recording subsystem of
`Assignments/Project/Student_feedback_system.py`.

The Python source is shallowly embedded below:
* the exception classes become the inductive `PyErr`;
* `Logger.write_log` (lines 96-102) is modelled by an attempt counter plus a
  schedule `OpEnv.logFailsFrom` telling from which write attempt onward the
  sink is broken (each failing attempt raises `FileHandlingError`);
* `DatabaseConnection.__enter__` / `__exit__` / `connect` / `disconnect`
  (lines 107-168) become `withTransaction`, which tracks the number of held
  MySQL handles and whether commit/rollback took effect;
* the `Student` and `Admin` methods (`register`, `login`, `submit_feedback`,
  `view_feedback`) become pure functions over an explicit relational state
  `DB` mirroring the schema in the module docstring (tables `students`,
  `admins`, `courses`, `feedback`, with the UNIQUE constraints on
  `students.email`, `admins.username` and `feedback (student_id, course_id)`
  enforced by the storage model itself);
* `werkzeug.security.generate_password_hash` / `check_password_hash` are an
  external dependency, modelled by their contract (see below);
* the concurrent double-submission race is modelled by an explicit
  interleaving machine (`raceStep` / `raceRun`).
-/

/-- The exception taxonomy of the source file (lines 72-82) together with
`mysql.connector.IntegrityError`, which the source imports and re-raises on
uniqueness-constraint violations (line 195-198).  The spec's renamed
taxonomy maps onto these as: ConnectionError ↦ `DatabaseConnectionError`,
LogWriteError ↦ `FileHandlingError`, DuplicateFeedbackError ↦
`DuplicateFeedbackError`, AuthenticationError ↦ `AuthenticationError`,
DuplicateIdentityError ↦ `IntegrityError` (the raw driver error the code
re-raises when the identity-key UNIQUE constraint rejects an insert). -/
inductive PyErr where
  | DatabaseConnectionError
  | DuplicateFeedbackError
  | FileHandlingError
  | AuthenticationError
  | IntegrityError
deriving DecidableEq, Repr

instance pyErrExceptDecEq {α : Type} [DecidableEq α] : DecidableEq (Except PyErr α) :=
  fun a b =>
  match a, b with
  | .error e1, .error e2 =>
      if h : e1 = e2 then isTrue (by rw [h])
      else isFalse (by intro hh; injection hh; contradiction)
  | .ok a1, .ok a2 =>
      if h : a1 = a2 then isTrue (by rw [h])
      else isFalse (by intro hh; injection hh; contradiction)
  | .error _, .ok _ => isFalse (by intro hh; injection hh)
  | .ok _, .error _ => isFalse (by intro hh; injection hh)

/-- Environment for the audit sink (`Logger`, lines 87-102).  Write attempts
are numbered from 0; `logFailsFrom = some k` means the sink becomes (and
stays) unwritable from the k-th attempt onward, so that attempt and all
later ones raise `FileHandlingError` (line 102); `none` means every write
succeeds.  The message texts are elided: only the success/failure of each
attempt is observable to the claims. -/
structure OpEnv where
  logFailsFrom : Option Nat
deriving DecidableEq, Repr

/-- Whether the log write attempt numbered `n` fails (raises
`FileHandlingError` in the source, line 102). -/
def logAttempt (env : OpEnv) (n : Nat) : Bool :=
  match env.logFailsFrom with
  | none => false
  | some k => decide (k ≤ n)

/-- A fully healthy audit sink: no write attempt ever fails. -/
def healthyEnv : OpEnv := ⟨none⟩

/-- `DatabaseConnection.disconnect` (lines 136-147): closes cursor and
connection, then logs; its one `try` block catches every failure and, in the
handler, makes one further (swallowed) log attempt.  This helper returns the
attempt counter after `disconnect` runs starting at attempt `n` (one attempt
if the first write succeeds, two if it fails and the handler's write is also
attempted).  `disconnect` itself never raises. -/
def disconnectLog (env : OpEnv) (n : Nat) : Nat :=
  if logAttempt env n then n + 2 else n + 1

/-- Contract model of `werkzeug.security.generate_password_hash` (an external
dependency, not part of this repository): a deterministic injective stand-in
for the salted one-way hash.  The salt's randomness is not modelled; what the
claims need is the contract that `check_password_hash` succeeds exactly on
the generating password. -/
def generate_password_hash (password : String) : String :=
  String.mk ('$' :: password.data)

/-- Contract model of `werkzeug.security.check_password_hash`: the stored
hash is compared against the hash of the candidate password. -/
def check_password_hash (stored candidate : String) : Bool :=
  stored == generate_password_hash candidate

/-- Row of the `students` table (schema lines 28-33): AUTO_INCREMENT primary
key, name, UNIQUE email, stored password hash. -/
structure StudentRow where
  student_id : Nat
  name : String
  email : String
  password : String
deriving DecidableEq, Repr

/-- Row of the `admins` table (schema lines 53-57). -/
structure AdminRow where
  admin_id : Nat
  username : String
  password : String
deriving DecidableEq, Repr

/-- Row of the `courses` table (schema lines 35-39). -/
structure CourseRow where
  course_id : Nat
  course_name : String
  faculty_name : String
deriving DecidableEq, Repr

/-- Row of the `feedback` table (schema lines 41-51): AUTO_INCREMENT key,
student/course references, rating, comments, and `created_at`, which the
schema fills with CURRENT_TIMESTAMP at insert time (timestamps are Nat). -/
structure FeedbackRow where
  feedback_id : Nat
  student_id : Nat
  course_id : Nat
  rating : Int
  comments : String
  created_at : Nat
deriving DecidableEq, Repr

/-- The committed state of the `feedback_system` database, with the
AUTO_INCREMENT counters for the two tables this subsystem inserts into. -/
structure DB where
  students : List StudentRow
  admins : List AdminRow
  courses : List CourseRow
  feedback : List FeedbackRow
  nextStudentId : Nat
  nextFeedbackId : Nat
deriving DecidableEq, Repr

/-- The source's `Feedback` data class (lines 173-179): the submission input.
Its `created_at` is set by the constructor (`datetime.now()`) but is *not*
part of the INSERT at line 228, whose row gets the schema's
CURRENT_TIMESTAMP default instead. -/
structure Feedback where
  student_id : Nat
  course_id : Nat
  rating : Int
  comments : String
  created_at : Nat
deriving DecidableEq, Repr

/-- Failure-mode switches for one `with DatabaseConnection(...)` scope:
whether `mysql.connector.connect` raises (line 119), whether the `write_log`
inside `connect` raises (line 127), whether `conn.commit()` raises in
`__exit__` (line 165), whether `conn.rollback()` raises (line 159), and
whether `cursor.close()`/`conn.close()` raise inside `disconnect`
(lines 138-141). -/
structure ConnEnv where
  connectFails : Bool
  connectLogFails : Bool
  commitFails : Bool
  rollbackFails : Bool
  closeFails : Bool
deriving DecidableEq, Repr

/-- Observable outcome of one `with DatabaseConnection(...)` scope:
what the caller receives, how many handles are held after control returns
(starting from the pre-call count), and whether the commit / rollback issued
by `__exit__` actually took effect. -/
structure TxnResult (α : Type) where
  result : Except PyErr α
  handles : Nat
  committed : Bool
  rolledBack : Bool
deriving Repr

/-- The scoped-transaction wrapper: `__enter__` = `connect` (lines 117-134,
150-152), then the unit of work, then `__exit__` (lines 154-168).
Traced from the source:
* if `mysql.connector.connect` raises, `connect` logs (swallowing a log
  failure) and raises `DatabaseConnectionError`; no handle was acquired;
* otherwise the handle is acquired, and `connect` then calls
  `write_log('Database connected successfully.')` *outside* any guard for
  `FileHandlingError`: if that write fails, `FileHandlingError` escapes
  `__enter__`, Python never runs `__exit__`, and the handle stays held;
* otherwise the work runs; `__exit__` commits on success / rolls back on
  error, swallowing a commit or rollback failure (`except Exception: pass`),
  then calls `disconnect`, whose single `try` block means a failing
  `cursor.close()` (or `conn.close()`) is swallowed but leaves the
  connection unclosed; `disconnect` never raises, so a work error
  propagates unchanged. -/
def withTransaction {α : Type} (env : ConnEnv) (h0 : Nat) (work : Except PyErr α) :
    TxnResult α :=
  if env.connectFails then
    ⟨.error .DatabaseConnectionError, h0, false, false⟩
  else if env.connectLogFails then
    ⟨.error .FileHandlingError, h0 + 1, false, false⟩
  else
    match work with
    | .ok a =>
        ⟨.ok a, if env.closeFails then h0 + 1 else h0, !env.commitFails, false⟩
    | .error e =>
        ⟨.error e, if env.closeFails then h0 + 1 else h0, false, !env.rollbackFails⟩

/-- Result of one service-method call: what the caller receives, the
committed database afterwards, the audit-sink attempt counter afterwards,
and whether an INSERT was ever issued to the storage layer during the call
(used to distinguish constraint-based duplicate detection from an
application-level pre-check). -/
structure OpResult (α : Type) where
  result : Except PyErr α
  db : DB
  logN : Nat
  insertAttempted : Bool
deriving Repr

namespace Student

/-- `Student.register` (lines 186-201), traced from the source.
`__enter__` logs first (attempt `n`); a failure there escapes uncaught
(`except IntegrityError` / `except DatabaseConnectionError` match neither).
The method then issues the INSERT directly — there is no existence
pre-check — and the storage layer's UNIQUE constraint on `students.email`
rejects it with `IntegrityError` when the email is already present; the
handler logs the duplicate attempt (after `__exit__`'s rollback and
`disconnect`) and re-raises the `IntegrityError` itself (a failing log write
there escapes as `FileHandlingError` instead, since `raise ie` on line 198
is never reached).  On a fresh email the row is inserted, explicitly
committed (line 192), and the success log attempt follows; if that attempt
fails, the committed row stays but `FileHandlingError` escapes uncaught. -/
def register (env : OpEnv) (db : DB) (n : Nat) (name email password : String) :
    OpResult Bool :=
  let hashed := generate_password_hash password
  if logAttempt env n then
    ⟨.error .FileHandlingError, db, n + 1, false⟩
  else if db.students.any (fun s => s.email == email) then
    let m := disconnectLog env (n + 1)
    if logAttempt env m then
      ⟨.error .FileHandlingError, db, m + 1, true⟩
    else
      ⟨.error .IntegrityError, db, m + 1, true⟩
  else
    let row : StudentRow := ⟨db.nextStudentId, name, email, hashed⟩
    let db' : DB := ⟨db.students ++ [row], db.admins, db.courses, db.feedback,
      db.nextStudentId + 1, db.nextFeedbackId⟩
    if logAttempt env (n + 1) then
      ⟨.error .FileHandlingError, db', disconnectLog env (n + 2), true⟩
    else
      ⟨.ok true, db', disconnectLog env (n + 2), true⟩

/-- `Student.login` (lines 203-216), traced from the source: SELECT the
first `students` row matching the email (`fetchone`), succeed with that
entire row when one exists and the hash check passes, otherwise raise
`AuthenticationError`; either way one log attempt precedes the outcome, and
a failure of any log attempt escapes uncaught as `FileHandlingError` (only
`DatabaseConnectionError` is re-caught).  The call performs no writes. -/
def login (env : OpEnv) (db : DB) (n : Nat) (email password : String) :
    OpResult StudentRow :=
  if logAttempt env n then
    ⟨.error .FileHandlingError, db, n + 1, false⟩
  else
    match db.students.find? (fun s => s.email == email) with
    | some r =>
      if check_password_hash r.password password then
        if logAttempt env (n + 1) then
          ⟨.error .FileHandlingError, db, disconnectLog env (n + 2), false⟩
        else
          ⟨.ok r, db, disconnectLog env (n + 2), false⟩
      else
        if logAttempt env (n + 1) then
          ⟨.error .FileHandlingError, db, disconnectLog env (n + 2), false⟩
        else
          ⟨.error .AuthenticationError, db, disconnectLog env (n + 2), false⟩
    | none =>
      if logAttempt env (n + 1) then
        ⟨.error .FileHandlingError, db, disconnectLog env (n + 2), false⟩
      else
        ⟨.error .AuthenticationError, db, disconnectLog env (n + 2), false⟩

/-- `Student.submit_feedback` (lines 218-239), traced from the source.
After `__enter__`'s log attempt, the method runs an application-level
existence pre-check (`SELECT ... WHERE student_id = %s AND course_id = %s`,
lines 222-224); if a row exists it logs the duplicate attempt and raises
`DuplicateFeedbackError` — the INSERT on line 228 is never issued (so
`insertAttempted` is `false` on that path; and if the duplicate-message log
attempt itself fails, what escapes is a `FileHandlingError`, logged once
more by the bare `except Exception` handler before re-raising).  Otherwise
the row `(nextFeedbackId, student_id, course_id, rating, comments, now)` is
inserted and committed (line 230; `created_at` is the schema default `now`),
after which the success log attempt runs: if it fails, the already-committed
row stays but the bare `except Exception` handler logs and re-raises the
`FileHandlingError` to the caller. -/
def submit_feedback (env : OpEnv) (now : Nat) (db : DB) (n : Nat) (fb : Feedback) :
    OpResult Bool :=
  if logAttempt env n then
    ⟨.error .FileHandlingError, db, n + 2, false⟩
  else if db.feedback.any
      (fun r => r.student_id == fb.student_id && r.course_id == fb.course_id) then
    if logAttempt env (n + 1) then
      ⟨.error .FileHandlingError, db, disconnectLog env (n + 2) + 1, false⟩
    else
      ⟨.error .DuplicateFeedbackError, db, disconnectLog env (n + 2), false⟩
  else
    let row : FeedbackRow :=
      ⟨db.nextFeedbackId, fb.student_id, fb.course_id, fb.rating, fb.comments, now⟩
    let db' : DB := ⟨db.students, db.admins, db.courses, db.feedback ++ [row],
      db.nextStudentId, db.nextFeedbackId + 1⟩
    if logAttempt env (n + 1) then
      ⟨.error .FileHandlingError, db', disconnectLog env (n + 2) + 1, true⟩
    else
      ⟨.ok true, db', disconnectLog env (n + 2), true⟩

end Student

/-- One row of the administrator's feedback listing: the SELECT list of the
join query in `Admin.view_feedback` (lines 264-268). -/
structure ViewRow where
  feedback_id : Nat
  student_id : Nat
  student_name : String
  course_id : Nat
  course_name : String
  faculty_name : String
  rating : Int
  comments : String
  created_at : Nat
deriving DecidableEq, Repr

/-- Projection of a listing row back onto the underlying `feedback` row
(every selected `f.*` column). -/
def viewToFeedback (v : ViewRow) : FeedbackRow :=
  ⟨v.feedback_id, v.student_id, v.course_id, v.rating, v.comments, v.created_at⟩

/-- The `ORDER BY f.created_at DESC` comparison of the listing query. -/
def createdDesc (a b : ViewRow) : Prop := b.created_at ≤ a.created_at

instance createdDescDecidable : DecidableRel createdDesc :=
  fun a b => Nat.decLe b.created_at a.created_at

instance createdDescTotal : IsTotal ViewRow createdDesc :=
  ⟨fun a b => Nat.le_total b.created_at a.created_at⟩

instance createdDescTrans : IsTrans ViewRow createdDesc :=
  ⟨fun _ _ _ hab hbc => Nat.le_trans hbc hab⟩

/-- The contribution of one `feedback` row to the inner join
`feedback JOIN students ON ... JOIN courses ON ...` (lines 264-267):
every matching student paired with every matching course. -/
def joinOne (db : DB) (f : FeedbackRow) : List ViewRow :=
  (db.students.filter (fun s => s.student_id == f.student_id)).flatMap (fun s =>
    (db.courses.filter (fun c => c.course_id == f.course_id)).map (fun c =>
      ⟨f.feedback_id, f.student_id, s.name, f.course_id, c.course_name,
        c.faculty_name, f.rating, f.comments, f.created_at⟩))

/-- The full inner join of the listing query, before `ORDER BY`. -/
def joinFeedback (db : DB) : List ViewRow :=
  db.feedback.flatMap (joinOne db)

namespace Admin

/-- `Admin.login` (lines 246-259), traced from the source exactly as
`Student.login` but over the `admins` table keyed by username. -/
def login (env : OpEnv) (db : DB) (n : Nat) (username password : String) :
    OpResult AdminRow :=
  if logAttempt env n then
    ⟨.error .FileHandlingError, db, n + 1, false⟩
  else
    match db.admins.find? (fun a => a.username == username) with
    | some r =>
      if check_password_hash r.password password then
        if logAttempt env (n + 1) then
          ⟨.error .FileHandlingError, db, disconnectLog env (n + 2), false⟩
        else
          ⟨.ok r, db, disconnectLog env (n + 2), false⟩
      else
        if logAttempt env (n + 1) then
          ⟨.error .FileHandlingError, db, disconnectLog env (n + 2), false⟩
        else
          ⟨.error .AuthenticationError, db, disconnectLog env (n + 2), false⟩
    | none =>
      if logAttempt env (n + 1) then
        ⟨.error .FileHandlingError, db, disconnectLog env (n + 2), false⟩
      else
        ⟨.error .AuthenticationError, db, disconnectLog env (n + 2), false⟩

/-- `Admin.view_feedback` (lines 261-277), traced from the source: execute
the three-table join ordered by `created_at` descending (the sort is
realised by `List.insertionSort`, one of the orderings MySQL may return for
`ORDER BY ... DESC`, which does not promise a stable tie order), log, and
return the rows; a failing log attempt is re-logged by the bare
`except Exception` handler and escapes as `FileHandlingError`.  Read-only:
the database is returned unchanged. -/
def view_feedback (env : OpEnv) (db : DB) (n : Nat) : OpResult (List ViewRow) :=
  if logAttempt env n then
    ⟨.error .FileHandlingError, db, n + 2, false⟩
  else
    let rows := List.insertionSort createdDesc (joinFeedback db)
    if logAttempt env (n + 1) then
      ⟨.error .FileHandlingError, db, disconnectLog env (n + 2) + 1, false⟩
    else
      ⟨.ok rows, db, disconnectLog env (n + 2), false⟩

end Admin

/-- Terminal outcome of one of the two racing `submit_feedback` calls. -/
inductive SubOutcome where
  | success
  | dupError
  | integrityError
deriving DecidableEq, Repr

/-- Program counter of one racing `submit_feedback` call: about to run the
existence pre-check (lines 222-224), about to run the INSERT-and-commit
(lines 228-230), or finished with an outcome. -/
inductive SubSt where
  | atCheck
  | atInsert
  | done (o : SubOutcome)
deriving DecidableEq, Repr

/-- Joint state of the double-submission race for one contested
(student, course) pair: the number of committed `feedback` rows for that
pair, and the two calls' program counters.  Each call runs on its own
connection (Section 5 of the spec); the second inserter blocks on the
first's row lock until that commit, so INSERT-plus-commit acts as one
atomic step against the shared store. -/
structure RaceSt where
  rows : Nat
  p1 : SubSt
  p2 : SubSt
deriving DecidableEq, Repr

/-- One step of a single racing call, from the source: the pre-check raises
`DuplicateFeedbackError` when a committed row for the pair is visible
(lines 224-226) and otherwise proceeds to the INSERT; the INSERT is rejected
by the UNIQUE KEY `(student_id, course_id)` with `IntegrityError` when a row
was committed meanwhile (re-raised by the bare `except Exception`, line 239),
and otherwise commits the new row. -/
def stepOne (rows : Nat) : SubSt → Nat × SubSt
  | .atCheck => if rows > 0 then (rows, .done .dupError) else (rows, .atInsert)
  | .atInsert => if rows > 0 then (rows, .done .integrityError) else (rows + 1, .done .success)
  | .done o => (rows, .done o)

/-- Scheduler step: `true` advances call 1, `false` advances call 2. -/
def raceStep (b : Bool) (s : RaceSt) : RaceSt :=
  if b then
    let (r, p) := stepOne s.rows s.p1
    ⟨r, p, s.p2⟩
  else
    let (r, p) := stepOne s.rows s.p2
    ⟨r, s.p1, p⟩

/-- Run a whole interleaving schedule. -/
def raceRun : List Bool → RaceSt → RaceSt
  | [], s => s
  | b :: bs, s => raceRun bs (raceStep b s)

/-- Initial race state: no committed row for the pair, both calls about to
run their pre-check. -/
def raceInit : RaceSt := ⟨0, .atCheck, .atCheck⟩

/-- Whether a racing call has terminated. -/
def isDoneB : SubSt → Bool
  | .done _ => true
  | _ => false

/-- Whether a racing call terminated successfully. -/
def succB : SubSt → Bool
  | .done .success => true
  | _ => false

/-- Whether a racing call terminated with one of the two failure outcomes
(`DuplicateFeedbackError` from the pre-check, or the storage layer's
`IntegrityError`). -/
def failDoneB : SubSt → Bool
  | .done .dupError => true
  | .done .integrityError => true
  | _ => false

/-- Invariant of the race: the committed-row count equals the number of
successfully finished calls, never exceeds one, and any failed call implies
the row is already committed. -/
def raceInv (s : RaceSt) : Prop :=
  s.rows = (if succB s.p1 then 1 else 0) + (if succB s.p2 then 1 else 0) ∧
  s.rows ≤ 1 ∧
  (failDoneB s.p1 = true → s.rows = 1) ∧
  (failDoneB s.p2 = true → s.rows = 1)

/-- Concrete store for the authentication contract witness: one registered
student and one provisioned administrator with known passwords. -/
def dbC7 : DB :=
  ⟨[⟨1, "Ann", "ann@x.io", generate_password_hash "pw1"⟩],
   [⟨1, "root", generate_password_hash "pw2"⟩], [], [], 2, 1⟩

/-- Concrete store for the stored-row-return witness: one student and one
administrator. -/
def dbC10 : DB :=
  ⟨[⟨3, "Raj", "raj@x.io", generate_password_hash "s3cret"⟩],
   [⟨2, "ops", generate_password_hash "adm1n"⟩], [], [], 4, 1⟩

/-- Concrete store for the feedback-listing witness: two students, one
course, and two feedback rows with distinct creation timestamps. -/
def dbC8 : DB :=
  ⟨[⟨1, "Ann", "ann@x.io", "h1"⟩, ⟨2, "Bob", "bob@x.io", "h2"⟩],
   [], [⟨1, "Maths", "Dr. X"⟩],
   [⟨1, 1, 1, 4, "good", 5⟩, ⟨2, 2, 1, 5, "great", 9⟩], 3, 3⟩

theorem logAttempt_healthy (n : Nat) : logAttempt healthyEnv n = false := rfl

theorem generate_password_hash_inj (p q : String)
    (h : generate_password_hash p = generate_password_hash q) : p = q := by
  unfold generate_password_hash at h
  injection h with hd
  injection hd with _ ht
  exact String.ext ht

theorem check_password_hash_gen_self (p : String) :
    check_password_hash (generate_password_hash p) p = true := by
  simp [check_password_hash]

theorem check_password_hash_gen_ne (p q : String) (h : q ≠ p) :
    check_password_hash (generate_password_hash p) q = false := by
  unfold check_password_hash
  rw [beq_eq_false_iff_ne]
  intro hgen
  exact h (generate_password_hash_inj p q hgen).symm

/-- Claim C3: for every `withTransaction` scope (the `DatabaseConnection`
context manager) in which the storage control operations themselves behave
(commit and rollback do not fail, and the scope was entered normally): if
the unit of work completes without error the transaction is committed, and
if the unit of work signals any error the transaction is rolled back and
that same error propagates to the caller unchanged. -/
theorem withTransaction_commit_rollback {α : Type} (env : ConnEnv) (h0 : Nat)
    (work : Except PyErr α)
    (hc : env.connectFails = false) (hl : env.connectLogFails = false)
    (hco : env.commitFails = false) (hro : env.rollbackFails = false) :
    (∀ a, work = .ok a →
      (withTransaction env h0 work).result = .ok a ∧
      (withTransaction env h0 work).committed = true) ∧
    (∀ e, work = .error e →
      (withTransaction env h0 work).result = .error e ∧
      (withTransaction env h0 work).rolledBack = true) := by
  constructor
  · intro a ha
    subst ha
    simp [withTransaction, hc, hl, hco]
  · intro e he
    subst he
    simp [withTransaction, hc, hl, hro]

/-- Witness for claim C3 at a concrete environment, a committing unit of
work, and a failing one. -/
theorem withTransaction_commit_rollback_witness :
    (withTransaction ⟨false, false, false, false, false⟩ 0
        (Except.ok 7 : Except PyErr Nat)).result = .ok 7 ∧
    (withTransaction ⟨false, false, false, false, false⟩ 0
        (Except.ok 7 : Except PyErr Nat)).committed = true ∧
    (withTransaction ⟨false, false, false, false, false⟩ 0
        (Except.error PyErr.AuthenticationError : Except PyErr Nat)).result =
      .error PyErr.AuthenticationError ∧
    (withTransaction ⟨false, false, false, false, false⟩ 0
        (Except.error PyErr.AuthenticationError : Except PyErr Nat)).rolledBack = true := by
  have h1 := withTransaction_commit_rollback ⟨false, false, false, false, false⟩ 0
    (Except.ok 7 : Except PyErr Nat) rfl rfl rfl rfl
  have h2 := withTransaction_commit_rollback ⟨false, false, false, false, false⟩ 0
    (Except.error PyErr.AuthenticationError : Except PyErr Nat) rfl rfl rfl rfl
  exact ⟨(h1.1 7 rfl).1, (h1.1 7 rfl).2, (h2.2 _ rfl).1, (h2.2 _ rfl).2⟩

/-- Claim C9: when the unit of work completes without error but
`conn.commit()` itself raises inside `__exit__`, the failure is swallowed by
its bare `except Exception: pass` (lines 163-167): the caller observes the
work's successful result even though nothing was committed, so a committed
transaction is indistinguishable from one whose commit failed. -/
theorem withTransaction_commit_failure_silent {α : Type} (env : ConnEnv) (h0 : Nat)
    (a : α) (hc : env.connectFails = false) (hl : env.connectLogFails = false)
    (hcf : env.commitFails = true) :
    (withTransaction env h0 (Except.ok a)).result = .ok a ∧
    (withTransaction env h0 (Except.ok a)).committed = false := by
  simp [withTransaction, hc, hl, hcf]

/-- Witness for claim C9 at a concrete environment whose commit fails. -/
theorem withTransaction_commit_failure_silent_witness :
    (withTransaction ⟨false, false, true, false, false⟩ 0
        (Except.ok 3 : Except PyErr Nat)).result = .ok 3 ∧
    (withTransaction ⟨false, false, true, false, false⟩ 0
        (Except.ok 3 : Except PyErr Nat)).committed = false :=
  withTransaction_commit_failure_silent ⟨false, false, true, false, false⟩ 0 3 rfl rfl rfl

/-- Claim C4 is violated by the code: two exit paths keep the handle held.
First, `connect()` (line 127) calls `write_log` after the MySQL handle is
acquired without guarding against `FileHandlingError` (unlike its own error
path, lines 130-133), so a failing audit sink makes `__enter__` raise and
Python never runs `__exit__`: the handle count ends one above its pre-call
value.  Second, `disconnect` (lines 136-147) runs `cursor.close()`,
`conn.close()` and the log write in a single `try` block, so a failing
`cursor.close()` skips `conn.close()` while the caller still observes plain
success. -/
theorem withTransaction_handle_leak :
    (withTransaction ⟨false, true, false, false, false⟩ 0
        (Except.ok 0 : Except PyErr Nat)).handles = 1 ∧
    (withTransaction ⟨false, true, false, false, false⟩ 0
        (Except.ok 0 : Except PyErr Nat)).result = .error PyErr.FileHandlingError ∧
    (withTransaction ⟨false, false, false, false, true⟩ 0
        (Except.ok 0 : Except PyErr Nat)).handles = 1 ∧
    (withTransaction ⟨false, false, false, false, true⟩ 0
        (Except.ok 0 : Except PyErr Nat)).result = .ok 0 := by
  exact ⟨rfl, rfl, rfl, rfl⟩

/-- Claim C1 counterexample: at a store already holding a feedback row for
(student 1, course 1), a second submit for that pair does fail with
`DuplicateFeedbackError`, but no INSERT is ever issued to the storage layer:
the duplicate is detected by the application-level SELECT pre-check
(lines 222-226), not by the uniqueness constraint rejecting an insert as the
claim states. -/
theorem submit_duplicate_constraint_cex :
    ((⟨[], [], [], [⟨1, 1, 1, 5, "ok", 0⟩], 1, 2⟩ : DB).feedback.any
        (fun r => r.student_id == 1 && r.course_id == 1) = true) ∧
    (Student.submit_feedback healthyEnv 7 ⟨[], [], [], [⟨1, 1, 1, 5, "ok", 0⟩], 1, 2⟩ 0
        ⟨1, 1, 4, "again", 7⟩).result = .error PyErr.DuplicateFeedbackError ∧
    ¬ (Student.submit_feedback healthyEnv 7 ⟨[], [], [], [⟨1, 1, 1, 5, "ok", 0⟩], 1, 2⟩ 0
        ⟨1, 1, 4, "again", 7⟩).insertAttempted = true := by
  decide

/-- Claim C1 (amended): for every submit call, with a writable audit sink,
where a Feedback row for (studentId, courseId) already exists, submit fails
with `DuplicateFeedbackError`, the transaction rolls back, and no new or
partial Feedback row becomes visible (the store is unchanged); the duplicate
is detected by the application-level SELECT existence check that precedes
the insert, and no insert is attempted at all, rather than by the storage
layer's uniqueness constraint rejecting an insert. -/
theorem submit_duplicate_precheck (now : Nat) (db : DB) (n : Nat) (fb : Feedback)
    (h : db.feedback.any
      (fun r => r.student_id == fb.student_id && r.course_id == fb.course_id) = true) :
    (Student.submit_feedback healthyEnv now db n fb).result =
      .error PyErr.DuplicateFeedbackError ∧
    (Student.submit_feedback healthyEnv now db n fb).db = db ∧
    (Student.submit_feedback healthyEnv now db n fb).insertAttempted = false := by
  simp [Student.submit_feedback, logAttempt_healthy, h]

/-- Witness for the amended claim C1 at a concrete duplicate submission. -/
theorem submit_duplicate_precheck_witness :
    ((⟨[], [], [], [⟨1, 1, 1, 5, "ok", 0⟩], 1, 2⟩ : DB).feedback.any
        (fun r => r.student_id == (⟨1, 1, 4, "again", 7⟩ : Feedback).student_id &&
          r.course_id == (⟨1, 1, 4, "again", 7⟩ : Feedback).course_id) = true) ∧
    (Student.submit_feedback healthyEnv 7 ⟨[], [], [], [⟨1, 1, 1, 5, "ok", 0⟩], 1, 2⟩ 0
        ⟨1, 1, 4, "again", 7⟩).result = .error PyErr.DuplicateFeedbackError ∧
    (Student.submit_feedback healthyEnv 7 ⟨[], [], [], [⟨1, 1, 1, 5, "ok", 0⟩], 1, 2⟩ 0
        ⟨1, 1, 4, "again", 7⟩).db = ⟨[], [], [], [⟨1, 1, 1, 5, "ok", 0⟩], 1, 2⟩ ∧
    (Student.submit_feedback healthyEnv 7 ⟨[], [], [], [⟨1, 1, 1, 5, "ok", 0⟩], 1, 2⟩ 0
        ⟨1, 1, 4, "again", 7⟩).insertAttempted = false := by
  have h := submit_duplicate_precheck 7 ⟨[], [], [], [⟨1, 1, 1, 5, "ok", 0⟩], 1, 2⟩ 0
    ⟨1, 1, 4, "again", 7⟩ (by decide)
  exact ⟨by decide, h.1, h.2.1, h.2.2⟩

/-- Claim C5 counterexample: on an empty store, a submit whose INSERT and
explicit commit succeed but whose success-message log write fails (the sink
breaks from attempt 1, right after `connect`'s log write) leaves the
Feedback row persisted, yet the caller receives `FileHandlingError` instead
of success: the `except Exception` handler at lines 237-239 re-raises it, so
the logging failure does mask the primary result. -/
theorem submit_log_failure_masks_success_cex :
    (Student.submit_feedback ⟨some 1⟩ 9 ⟨[], [], [], [], 1, 1⟩ 0
        ⟨2, 3, 5, "great", 9⟩).db.feedback = [⟨1, 2, 3, 5, "great", 9⟩] ∧
    (Student.submit_feedback ⟨some 1⟩ 9 ⟨[], [], [], [], 1, 1⟩ 0
        ⟨2, 3, 5, "great", 9⟩).result ≠ .ok true ∧
    (Student.submit_feedback ⟨some 1⟩ 9 ⟨[], [], [], [], 1, 1⟩ 0
        ⟨2, 3, 5, "great", 9⟩).result = .error PyErr.FileHandlingError := by
  decide

/-- Claim C5 (amended): for every submit call whose primary operation
succeeds (no duplicate; the INSERT is issued and explicitly committed at
line 230) but whose accompanying audit append fails, the Feedback row
remains persisted regardless of the log outcome — but the caller does not
receive success: the logging failure replaces the primary result and the
call raises `FileHandlingError`. -/
theorem submit_log_failure_row_persisted (now : Nat) (db : DB) (n : Nat) (fb : Feedback)
    (h : db.feedback.any
      (fun r => r.student_id == fb.student_id && r.course_id == fb.course_id) = false) :
    (Student.submit_feedback ⟨some (n + 1)⟩ now db n fb).result =
      .error PyErr.FileHandlingError ∧
    (Student.submit_feedback ⟨some (n + 1)⟩ now db n fb).db.feedback =
      db.feedback ++
        [⟨db.nextFeedbackId, fb.student_id, fb.course_id, fb.rating, fb.comments, now⟩] ∧
    (Student.submit_feedback ⟨some (n + 1)⟩ now db n fb).insertAttempted = true := by
  have h0 : logAttempt ⟨some (n + 1)⟩ n = false := by simp [logAttempt]
  have h1 : logAttempt ⟨some (n + 1)⟩ (n + 1) = true := by simp [logAttempt]
  simp [Student.submit_feedback, h0, h1, h]

/-- Witness for the amended claim C5 at a concrete fresh submission with a
sink that breaks right after the connect-time log write. -/
theorem submit_log_failure_row_persisted_witness :
    ((⟨[], [], [], [], 1, 1⟩ : DB).feedback.any
        (fun r => r.student_id == (⟨2, 3, 5, "great", 9⟩ : Feedback).student_id &&
          r.course_id == (⟨2, 3, 5, "great", 9⟩ : Feedback).course_id) = false) ∧
    (Student.submit_feedback ⟨some 1⟩ 9 ⟨[], [], [], [], 1, 1⟩ 0
        ⟨2, 3, 5, "great", 9⟩).result = .error PyErr.FileHandlingError ∧
    (Student.submit_feedback ⟨some 1⟩ 9 ⟨[], [], [], [], 1, 1⟩ 0
        ⟨2, 3, 5, "great", 9⟩).db.feedback = [⟨1, 2, 3, 5, "great", 9⟩] := by
  have h := submit_log_failure_row_persisted 9 ⟨[], [], [], [], 1, 1⟩ 0
    ⟨2, 3, 5, "great", 9⟩ (by decide)
  exact ⟨by decide, h.1, by decide⟩

/-- Claim C6: registering the same identity key (email) twice against any
store not yet holding it, with a writable audit sink, stores exactly one
record; the first call succeeds and the second fails with the storage
layer's `IntegrityError` (the code's realization of the spec's
DuplicateIdentityError: `Student.register` re-raises the driver error that
the UNIQUE constraint on `students.email` produced).  The INSERT is issued
on both calls — `register` performs no existence pre-check — so detection is
by the storage layer's uniqueness constraint.  The quantification over both
calls' names and passwords covers either ordering of the two requests. -/
theorem register_ok (db : DB) (n : Nat) (name e pw : String)
    (h : db.students.any (fun s => s.email == e) = false) :
    Student.register healthyEnv db n name e pw =
      ⟨.ok true, ⟨db.students ++ [⟨db.nextStudentId, name, e, generate_password_hash pw⟩],
        db.admins, db.courses, db.feedback, db.nextStudentId + 1, db.nextFeedbackId⟩,
        disconnectLog healthyEnv (n + 2), true⟩ := by
  simp [Student.register, logAttempt_healthy, h]

theorem register_dup (db : DB) (n : Nat) (name e pw : String)
    (h : db.students.any (fun s => s.email == e) = true) :
    Student.register healthyEnv db n name e pw =
      ⟨.error PyErr.IntegrityError, db, disconnectLog healthyEnv (n + 1) + 1, true⟩ := by
  simp [Student.register, logAttempt_healthy, h]

theorem register_unique_constraint (db : DB) (n : Nat) (name1 pw1 name2 pw2 e : String)
    (h : db.students.any (fun s => s.email == e) = false) :
    (Student.register healthyEnv db n name1 e pw1).result = .ok true ∧
    (Student.register healthyEnv (Student.register healthyEnv db n name1 e pw1).db
        (Student.register healthyEnv db n name1 e pw1).logN name2 e pw2).result =
      .error PyErr.IntegrityError ∧
    (Student.register healthyEnv (Student.register healthyEnv db n name1 e pw1).db
        (Student.register healthyEnv db n name1 e pw1).logN name2 e pw2).insertAttempted =
      true ∧
    (Student.register healthyEnv (Student.register healthyEnv db n name1 e pw1).db
        (Student.register healthyEnv db n name1 e pw1).logN name2 e pw2).db.students.countP
        (fun s => s.email == e) = 1 ∧
    (Student.register healthyEnv (Student.register healthyEnv db n name1 e pw1).db
        (Student.register healthyEnv db n name1 e pw1).logN name2 e pw2).db =
      (Student.register healthyEnv db n name1 e pw1).db := by
  have h1 := register_ok db n name1 e pw1 h
  have hany2 : ((Student.register healthyEnv db n name1 e pw1).db.students.any
      (fun s => s.email == e)) = true := by
    rw [h1]
    simp
  have h2 := register_dup (Student.register healthyEnv db n name1 e pw1).db
    (Student.register healthyEnv db n name1 e pw1).logN name2 e pw2 hany2
  have hc0 : db.students.countP (fun s => s.email == e) = 0 :=
    List.countP_eq_zero.mpr (List.any_eq_false.mp h)
  refine ⟨?_, ?_, ?_, ?_, ?_⟩
  · rw [h1]
  · rw [h2]
  · rw [h2]
  · rw [h2]
    rw [h1]
    simp [List.countP_append, hc0, List.countP_cons]
  · rw [h2]

/-- Witness for claim C6 at a concrete empty store and a repeated email. -/
theorem register_unique_constraint_witness :
    ((⟨[], [], [], [], 1, 1⟩ : DB).students.any (fun s => s.email == "x@y.io") = false) ∧
    (Student.register healthyEnv ⟨[], [], [], [], 1, 1⟩ 0 "Ann" "x@y.io" "pw").result =
      .ok true ∧
    (Student.register healthyEnv
        (Student.register healthyEnv ⟨[], [], [], [], 1, 1⟩ 0 "Ann" "x@y.io" "pw").db
        (Student.register healthyEnv ⟨[], [], [], [], 1, 1⟩ 0 "Ann" "x@y.io" "pw").logN
        "Bea" "x@y.io" "pw2").result = .error PyErr.IntegrityError ∧
    (Student.register healthyEnv
        (Student.register healthyEnv ⟨[], [], [], [], 1, 1⟩ 0 "Ann" "x@y.io" "pw").db
        (Student.register healthyEnv ⟨[], [], [], [], 1, 1⟩ 0 "Ann" "x@y.io" "pw").logN
        "Bea" "x@y.io" "pw2").db.students.countP (fun s => s.email == "x@y.io") = 1 := by
  have h := register_unique_constraint ⟨[], [], [], [], 1, 1⟩ 0 "Ann" "pw" "Bea" "pw2"
    "x@y.io" (by decide)
  exact ⟨by decide, h.1, h.2.1, h.2.2.2.1⟩

/-- Claim C7: with a writable audit sink, for every stored (identity,
correct secret) pair, `verify` — realised as `Student.login` over emails and
`Admin.login` over usernames — succeeds; for every call with an unknown
identity or an incorrect secret it fails with `AuthenticationError`; and in
every case the call performs no writes, so no partial state change occurs
(the store after the call equals the store before it). -/
theorem verify_contract (db : DB) (n : Nat) :
    (∀ e pw r, db.students.find? (fun s => s.email == e) = some r →
        r.password = generate_password_hash pw →
        (Student.login healthyEnv db n e pw).result = .ok r ∧
        (Student.login healthyEnv db n e pw).db = db) ∧
    (∀ e pw, db.students.find? (fun s => s.email == e) = none →
        (Student.login healthyEnv db n e pw).result = .error PyErr.AuthenticationError ∧
        (Student.login healthyEnv db n e pw).db = db) ∧
    (∀ e pw cand r, db.students.find? (fun s => s.email == e) = some r →
        r.password = generate_password_hash pw → cand ≠ pw →
        (Student.login healthyEnv db n e cand).result = .error PyErr.AuthenticationError ∧
        (Student.login healthyEnv db n e cand).db = db) ∧
    (∀ u pw r, db.admins.find? (fun a => a.username == u) = some r →
        r.password = generate_password_hash pw →
        (Admin.login healthyEnv db n u pw).result = .ok r ∧
        (Admin.login healthyEnv db n u pw).db = db) ∧
    (∀ u pw, db.admins.find? (fun a => a.username == u) = none →
        (Admin.login healthyEnv db n u pw).result = .error PyErr.AuthenticationError ∧
        (Admin.login healthyEnv db n u pw).db = db) ∧
    (∀ u pw cand r, db.admins.find? (fun a => a.username == u) = some r →
        r.password = generate_password_hash pw → cand ≠ pw →
        (Admin.login healthyEnv db n u cand).result = .error PyErr.AuthenticationError ∧
        (Admin.login healthyEnv db n u cand).db = db) := by
  refine ⟨?_, ?_, ?_, ?_, ?_, ?_⟩
  · intro e pw r hf hpw
    have hc : check_password_hash r.password pw = true := by
      rw [hpw]
      exact check_password_hash_gen_self pw
    simp [Student.login, logAttempt_healthy, hf, hc]
  · intro e pw hf
    simp [Student.login, logAttempt_healthy, hf]
  · intro e pw cand r hf hpw hne
    have hc : check_password_hash r.password cand = false := by
      rw [hpw]
      exact check_password_hash_gen_ne pw cand hne
    simp [Student.login, logAttempt_healthy, hf, hc]
  · intro u pw r hf hpw
    have hc : check_password_hash r.password pw = true := by
      rw [hpw]
      exact check_password_hash_gen_self pw
    simp [Admin.login, logAttempt_healthy, hf, hc]
  · intro u pw hf
    simp [Admin.login, logAttempt_healthy, hf]
  · intro u pw cand r hf hpw hne
    have hc : check_password_hash r.password cand = false := by
      rw [hpw]
      exact check_password_hash_gen_ne pw cand hne
    simp [Admin.login, logAttempt_healthy, hf, hc]

/-- Witness for claim C7 at a concrete store: student and admin logins with
the correct secret succeed, and unknown-identity or wrong-secret calls fail
with `AuthenticationError`. -/
theorem verify_contract_witness :
    (Student.login healthyEnv dbC7 0 "ann@x.io" "pw1").result =
      .ok ⟨1, "Ann", "ann@x.io", generate_password_hash "pw1"⟩ ∧
    (Student.login healthyEnv dbC7 0 "zed@x.io" "pw1").result =
      .error PyErr.AuthenticationError ∧
    (Student.login healthyEnv dbC7 0 "ann@x.io" "wrong").result =
      .error PyErr.AuthenticationError ∧
    (Admin.login healthyEnv dbC7 0 "root" "pw2").result =
      .ok ⟨1, "root", generate_password_hash "pw2"⟩ ∧
    (Admin.login healthyEnv dbC7 0 "nobody" "pw2").result =
      .error PyErr.AuthenticationError ∧
    (Admin.login healthyEnv dbC7 0 "root" "wrong").result =
      .error PyErr.AuthenticationError := by
  have h := verify_contract dbC7 0
  exact ⟨(h.1 "ann@x.io" "pw1"
      ⟨1, "Ann", "ann@x.io", generate_password_hash "pw1"⟩ (by decide) rfl).1,
    (h.2.1 "zed@x.io" "pw1" (by decide)).1,
    (h.2.2.1 "ann@x.io" "pw1" "wrong"
      ⟨1, "Ann", "ann@x.io", generate_password_hash "pw1"⟩ (by decide) rfl (by decide)).1,
    (h.2.2.2.1 "root" "pw2"
      ⟨1, "root", generate_password_hash "pw2"⟩ (by decide) rfl).1,
    (h.2.2.2.2.1 "nobody" "pw2" (by decide)).1,
    (h.2.2.2.2.2 "root" "pw2" "wrong"
      ⟨1, "root", generate_password_hash "pw2"⟩ (by decide) rfl (by decide)).1⟩

/-- Claim C10: every successful `verify` — a student login (line 211) or an
admin login (line 254) — returns the entire stored row for the identity
(`SELECT *` plus `return row`), including its `password` field, which holds
the stored salted password hash. -/
theorem login_returns_stored_row (db : DB) (n : Nat) :
    (∀ e pw r, db.students.find? (fun s => s.email == e) = some r →
        check_password_hash r.password pw = true →
        (Student.login healthyEnv db n e pw).result = .ok r) ∧
    (∀ u pw r, db.admins.find? (fun a => a.username == u) = some r →
        check_password_hash r.password pw = true →
        (Admin.login healthyEnv db n u pw).result = .ok r) := by
  constructor
  · intro e pw r hf hc
    simp [Student.login, logAttempt_healthy, hf, hc]
  · intro u pw r hf hc
    simp [Admin.login, logAttempt_healthy, hf, hc]

/-- Witness for claim C10 at a concrete store: both logins return the whole
stored row, whose `password` field is the stored hash. -/
theorem login_returns_stored_row_witness :
    (Student.login healthyEnv dbC10 0 "raj@x.io" "s3cret").result =
      .ok ⟨3, "Raj", "raj@x.io", generate_password_hash "s3cret"⟩ ∧
    (Admin.login healthyEnv dbC10 0 "ops" "adm1n").result =
      .ok ⟨2, "ops", generate_password_hash "adm1n"⟩ ∧
    (⟨3, "Raj", "raj@x.io", generate_password_hash "s3cret"⟩ : StudentRow).password =
      generate_password_hash "s3cret" := by
  have h := login_returns_stored_row dbC10 0
  exact ⟨h.1 "raj@x.io" "s3cret" _ (by decide) (by decide),
    h.2 "ops" "adm1n" _ (by decide) (by decide), rfl⟩

theorem raceInv_init : raceInv raceInit := by
  unfold raceInv
  decide

theorem raceInv_step (b : Bool) (s : RaceSt) (h : raceInv s) :
    raceInv (raceStep b s) := by
  rcases s with ⟨rows, p1, p2⟩
  unfold raceInv at h ⊢
  dsimp only at h ⊢
  obtain ⟨h1, h2, h3, h4⟩ := h
  have hr : rows = 0 ∨ rows = 1 := by omega
  cases b <;> rcases hr with hr | hr <;> subst hr <;>
    rcases p1 with _ | _ | (_ | _ | _) <;> rcases p2 with _ | _ | (_ | _ | _) <;>
    (revert h1 h2 h3 h4; decide)

theorem raceInv_run (sched : List Bool) (s : RaceSt) (h : raceInv s) :
    raceInv (raceRun sched s) := by
  induction sched generalizing s with
  | nil => exact h
  | cons b bs ih => exact ih (raceStep b s) (raceInv_step b s h)

/-- Claim C2 counterexample: under the interleaving in which both calls run
their existence pre-check before either inserts (schedule: call 1 checks,
call 2 checks, call 1 inserts and commits, call 2 inserts), both calls
finish, but the loser fails with the storage layer's raw `IntegrityError`
(re-raised by the bare `except Exception`, lines 237-239) — not with
`DuplicateFeedbackError` as the claim states. -/
theorem race_dup_error_cex :
    isDoneB (raceRun [true, false, true, false] raceInit).p1 = true ∧
    isDoneB (raceRun [true, false, true, false] raceInit).p2 = true ∧
    (raceRun [true, false, true, false] raceInit).p2 =
      SubSt.done SubOutcome.integrityError ∧
    ¬ ((raceRun [true, false, true, false] raceInit).p1 =
          SubSt.done SubOutcome.success ∧
        (raceRun [true, false, true, false] raceInit).p2 =
          SubSt.done SubOutcome.dupError) ∧
    ¬ ((raceRun [true, false, true, false] raceInit).p2 =
          SubSt.done SubOutcome.success ∧
        (raceRun [true, false, true, false] raceInit).p1 =
          SubSt.done SubOutcome.dupError) := by
  decide

/-- Claim C2 (amended): for every valid (student, course) pair, two
concurrent submit calls for that pair — under every interleaving of their
pre-check and insert-and-commit steps that completes both calls — yield
exactly one success and exactly one failure, and exactly one row is
persisted (never two successes and never zero rows), because the storage
layer's uniqueness constraint rejects the loser's insert; but the loser's
error is `DuplicateFeedbackError` only when its pre-check already saw the
winner's committed row, and is the raw `IntegrityError` when both pre-checks
passed before either insert. -/
theorem race_one_success_one_failure (sched : List Bool)
    (h1 : isDoneB (raceRun sched raceInit).p1 = true)
    (h2 : isDoneB (raceRun sched raceInit).p2 = true) :
    (raceRun sched raceInit).rows = 1 ∧
    ((succB (raceRun sched raceInit).p1 = true ∧
        failDoneB (raceRun sched raceInit).p2 = true) ∨
      (succB (raceRun sched raceInit).p2 = true ∧
        failDoneB (raceRun sched raceInit).p1 = true)) := by
  have hI := raceInv_run sched raceInit raceInv_init
  unfold raceInv at hI
  obtain ⟨g1, g2, g3, g4⟩ := hI
  rcases hp1 : (raceRun sched raceInit).p1 with _ | _ | (_ | _ | _) <;>
    rcases hp2 : (raceRun sched raceInit).p2 with _ | _ | (_ | _ | _) <;>
    simp_all [isDoneB, succB, failDoneB]

/-- Witness for the amended claim C2 at the schedule where call 1 runs to
completion before call 2 checks: one success, one failure, one row. -/
theorem race_one_success_one_failure_witness :
    (raceRun [true, true, false] raceInit).rows = 1 ∧
    ((succB (raceRun [true, true, false] raceInit).p1 = true ∧
        failDoneB (raceRun [true, true, false] raceInit).p2 = true) ∨
      (succB (raceRun [true, true, false] raceInit).p2 = true ∧
        failDoneB (raceRun [true, true, false] raceInit).p1 = true)) :=
  race_one_success_one_failure [true, true, false] (by decide) (by decide)

theorem flatMap_map_of_singleton {α β : Type} (p : β → α) (g : α → List β)
    (l : List α) (h : ∀ a ∈ l, (g a).map p = [a]) : (l.flatMap g).map p = l := by
  induction l with
  | nil => rfl
  | cons a t ih =>
    rw [List.flatMap_cons, List.map_append, h a (by simp),
      ih (fun x hx => h x (by simp [hx]))]
    rfl

theorem joinOne_map (db : DB) (f : FeedbackRow)
    (hs : (db.students.filter (fun s => s.student_id == f.student_id)).length = 1)
    (hc : (db.courses.filter (fun c => c.course_id == f.course_id)).length = 1) :
    (joinOne db f).map viewToFeedback = [f] := by
  obtain ⟨s, hsE⟩ := List.length_eq_one.mp hs
  obtain ⟨c, hcE⟩ := List.length_eq_one.mp hc
  unfold joinOne
  rw [hsE, hcE]
  rfl

theorem joinFeedback_map (db : DB)
    (hs : ∀ f ∈ db.feedback,
      (db.students.filter (fun s => s.student_id == f.student_id)).length = 1)
    (hc : ∀ f ∈ db.feedback,
      (db.courses.filter (fun c => c.course_id == f.course_id)).length = 1) :
    (joinFeedback db).map viewToFeedback = db.feedback :=
  flatMap_map_of_singleton viewToFeedback (joinOne db) db.feedback
    (fun f hf => joinOne_map db f (hs f hf) (hc f hf))

theorem joinFeedback_mem (db : DB) (v : ViewRow) (hv : v ∈ joinFeedback db) :
    (∃ s ∈ db.students, s.student_id = v.student_id ∧ v.student_name = s.name) ∧
    (∃ c ∈ db.courses, c.course_id = v.course_id ∧ v.course_name = c.course_name ∧
      v.faculty_name = c.faculty_name) := by
  unfold joinFeedback joinOne at hv
  rw [List.mem_flatMap] at hv
  obtain ⟨f, hf, hv⟩ := hv
  rw [List.mem_flatMap] at hv
  obtain ⟨s, hsmem, hv⟩ := hv
  rw [List.mem_map] at hv
  obtain ⟨c, hcmem, hveq⟩ := hv
  rw [List.mem_filter] at hsmem hcmem
  obtain ⟨hs1, hs2⟩ := hsmem
  obtain ⟨hc1, hc2⟩ := hcmem
  subst hveq
  constructor
  · exact ⟨s, hs1, by simpa using hs2, rfl⟩
  · exact ⟨c, hc1, by simpa using hc2, rfl, rfl⟩

/-- Claim C8: with a writable audit sink, for every store whose feedback
rows each reference exactly one student and exactly one course (the
schema's foreign keys against primary keys), `view_feedback` returns all
Feedback rows — the listing projected back onto its `feedback` columns is a
permutation of the `feedback` table — each joined with the student's
display name and the course's name and faculty name, ordered by creation
timestamp descending (most recent first). -/
theorem view_feedback_contract (db : DB) (n : Nat)
    (hs : ∀ f ∈ db.feedback,
      (db.students.filter (fun s => s.student_id == f.student_id)).length = 1)
    (hc : ∀ f ∈ db.feedback,
      (db.courses.filter (fun c => c.course_id == f.course_id)).length = 1) :
    (Admin.view_feedback healthyEnv db n).result =
      .ok (List.insertionSort createdDesc (joinFeedback db)) ∧
    List.Perm ((List.insertionSort createdDesc (joinFeedback db)).map viewToFeedback)
      db.feedback ∧
    List.Sorted createdDesc (List.insertionSort createdDesc (joinFeedback db)) ∧
    (∀ v ∈ List.insertionSort createdDesc (joinFeedback db),
      (∃ s ∈ db.students, s.student_id = v.student_id ∧ v.student_name = s.name) ∧
      (∃ c ∈ db.courses, c.course_id = v.course_id ∧ v.course_name = c.course_name ∧
        v.faculty_name = c.faculty_name)) := by
  refine ⟨?_, ?_, ?_, ?_⟩
  · simp [Admin.view_feedback, logAttempt_healthy]
  · have hp := List.Perm.map viewToFeedback
      (List.perm_insertionSort createdDesc (joinFeedback db))
    rw [joinFeedback_map db hs hc] at hp
    exact hp
  · exact List.sorted_insertionSort createdDesc (joinFeedback db)
  · intro v hv
    exact joinFeedback_mem db v
      ((List.perm_insertionSort createdDesc (joinFeedback db)).mem_iff.mp hv)

/-- Witness for claim C8 at a concrete store with two students, one course
and two feedback rows. -/
theorem view_feedback_contract_witness :
    (∀ f ∈ dbC8.feedback,
      (dbC8.students.filter (fun s => s.student_id == f.student_id)).length = 1) ∧
    (∀ f ∈ dbC8.feedback,
      (dbC8.courses.filter (fun c => c.course_id == f.course_id)).length = 1) ∧
    ((Admin.view_feedback healthyEnv dbC8 0).result =
        .ok (List.insertionSort createdDesc (joinFeedback dbC8)) ∧
      List.Perm ((List.insertionSort createdDesc (joinFeedback dbC8)).map viewToFeedback)
        dbC8.feedback ∧
      List.Sorted createdDesc (List.insertionSort createdDesc (joinFeedback dbC8)) ∧
      (∀ v ∈ List.insertionSort createdDesc (joinFeedback dbC8),
        (∃ s ∈ dbC8.students, s.student_id = v.student_id ∧ v.student_name = s.name) ∧
        (∃ c ∈ dbC8.courses, c.course_id = v.course_id ∧ v.course_name = c.course_name ∧
          v.faculty_name = c.faculty_name))) :=
  ⟨by decide, by decide, view_feedback_contract dbC8 0 (by decide) (by decide)⟩
